import Mathlib

/-!
Shallow embedding of the mycraft camera / frame-loop core (src/camera.rs and
src/main.rs). Floating point values of the source are modelled as exact real
numbers; cgmath vector and matrix operations are translated componentwise
from the cgmath definitions the source calls.
-/

namespace Mycraft

/-- Model of cgmath Vector3 of f32 (also used for Point3). -/
@[ext]
structure Vec3 where
  x : ℝ
  y : ℝ
  z : ℝ

def Vec3.zero : Vec3 := ⟨0, 0, 0⟩

def Vec3.unit_z : Vec3 := ⟨0, 0, 1⟩

instance : Add Vec3 := ⟨fun a b => ⟨a.x + b.x, a.y + b.y, a.z + b.z⟩⟩

instance : Neg Vec3 := ⟨fun a => ⟨-a.x, -a.y, -a.z⟩⟩

instance : Sub Vec3 := ⟨fun a b => ⟨a.x - b.x, a.y - b.y, a.z - b.z⟩⟩

noncomputable instance : HDiv Vec3 ℝ Vec3 := ⟨fun a s => ⟨a.x / s, a.y / s, a.z / s⟩⟩

instance : HMul Vec3 ℝ Vec3 := ⟨fun a s => ⟨a.x * s, a.y * s, a.z * s⟩⟩

@[simp] lemma Vec3.add_x (a b : Vec3) : (a + b).x = a.x + b.x := rfl

@[simp] lemma Vec3.add_y (a b : Vec3) : (a + b).y = a.y + b.y := rfl

@[simp] lemma Vec3.add_z (a b : Vec3) : (a + b).z = a.z + b.z := rfl

@[simp] lemma Vec3.neg_x (a : Vec3) : (-a).x = -a.x := rfl

@[simp] lemma Vec3.neg_y (a : Vec3) : (-a).y = -a.y := rfl

@[simp] lemma Vec3.neg_z (a : Vec3) : (-a).z = -a.z := rfl

@[simp] lemma Vec3.sub_x (a b : Vec3) : (a - b).x = a.x - b.x := rfl

@[simp] lemma Vec3.sub_y (a b : Vec3) : (a - b).y = a.y - b.y := rfl

@[simp] lemma Vec3.sub_z (a b : Vec3) : (a - b).z = a.z - b.z := rfl

@[simp] lemma Vec3.hdiv_x (a : Vec3) (s : ℝ) : (a / s).x = a.x / s := rfl

@[simp] lemma Vec3.hdiv_y (a : Vec3) (s : ℝ) : (a / s).y = a.y / s := rfl

@[simp] lemma Vec3.hdiv_z (a : Vec3) (s : ℝ) : (a / s).z = a.z / s := rfl

@[simp] lemma Vec3.hmul_x (a : Vec3) (s : ℝ) : (a * s).x = a.x * s := rfl

@[simp] lemma Vec3.hmul_y (a : Vec3) (s : ℝ) : (a * s).y = a.y * s := rfl

@[simp] lemma Vec3.hmul_z (a : Vec3) (s : ℝ) : (a * s).z = a.z * s := rfl

@[simp] lemma Vec3.zero_x : Vec3.zero.x = 0 := rfl

@[simp] lemma Vec3.zero_y : Vec3.zero.y = 0 := rfl

@[simp] lemma Vec3.zero_z : Vec3.zero.z = 0 := rfl

@[simp] lemma Vec3.unit_z_x : Vec3.unit_z.x = 0 := rfl

@[simp] lemma Vec3.unit_z_y : Vec3.unit_z.y = 0 := rfl

@[simp] lemma Vec3.unit_z_z : Vec3.unit_z.z = 1 := rfl

/-- cgmath dot product. -/
def Vec3.dot (a b : Vec3) : ℝ := a.x * b.x + a.y * b.y + a.z * b.z

/-- cgmath cross product. -/
def Vec3.cross (a b : Vec3) : Vec3 :=
  ⟨a.y * b.z - a.z * b.y, a.z * b.x - a.x * b.z, a.x * b.y - a.y * b.x⟩

/-- cgmath magnitude: square root of the dot product with itself. -/
noncomputable def Vec3.magnitude (a : Vec3) : ℝ := Real.sqrt (a.dot a)

/-- cgmath normalize: the vector scaled by one over its magnitude. -/
noncomputable def Vec3.normalize (a : Vec3) : Vec3 := a * (1 / a.magnitude)

/-- Camera (src/camera.rs lines 3 to 11). -/
structure Camera where
  position : Vec3
  angle_ground : ℝ
  angle_up : ℝ
  aspect : ℝ
  fovy : ℝ
  znear : ℝ
  zfar : ℝ

/-- Camera::new (src/camera.rs lines 14 to 24). -/
def Camera.new (aspect : ℝ) : Camera :=
  { position := ⟨-10, 2, 1⟩
    angle_ground := 0
    angle_up := 0
    aspect := aspect
    fovy := 45
    znear := 0.1
    zfar := 100 }

/-- Camera::look_direction (src/camera.rs lines 32 to 39). -/
noncomputable def Camera.look_direction (self : Camera) : Vec3 :=
  ⟨Real.cos self.angle_up * Real.cos self.angle_ground,
   Real.cos self.angle_up * Real.sin self.angle_ground,
   Real.sin self.angle_up⟩

/-- Camera::forward_direction (src/camera.rs lines 41 to 48). -/
noncomputable def Camera.forward_direction (self : Camera) : Vec3 :=
  ⟨Real.cos self.angle_ground, Real.sin self.angle_ground, 0⟩

/-- Camera::right_direction (src/camera.rs lines 50 to 57). -/
noncomputable def Camera.right_direction (self : Camera) : Vec3 :=
  ⟨Real.sin self.angle_ground, -Real.cos self.angle_ground, 0⟩

/-- CameraController (src/camera.rs lines 60 to 70). -/
structure CameraController where
  speed : ℝ
  angle_ground_delta : ℝ
  angle_up_delta : ℝ
  is_up_pressed : Bool
  is_down_pressed : Bool
  is_forward_pressed : Bool
  is_backward_pressed : Bool
  is_left_pressed : Bool
  is_right_pressed : Bool

/-- CameraController::new (src/camera.rs lines 73 to 85). -/
def CameraController.new (speed : ℝ) : CameraController :=
  { speed := speed
    angle_ground_delta := 0
    angle_up_delta := 0
    is_up_pressed := false
    is_down_pressed := false
    is_forward_pressed := false
    is_backward_pressed := false
    is_left_pressed := false
    is_right_pressed := false }

/-- Device events relevant to the controller: mouse motion with a delta pair,
or anything else. -/
inductive DeviceEvent where
  | mouseMotion (dx dy : ℝ)
  | other

/-- CameraController::process_device_event (src/camera.rs lines 131 to 148):
the capture-gated revision, which the spec designates as the target. Returns
the updated controller and whether the event was consumed. -/
noncomputable def CameraController.process_device_event
    (self : CameraController) (event : DeviceEvent) (is_cursor_captured : Bool) :
    CameraController × Bool :=
  match event with
  | .mouseMotion dx dy =>
      if is_cursor_captured then
        ({ self with
            angle_ground_delta := self.angle_ground_delta - dx
            angle_up_delta := self.angle_up_delta - dy }, true)
      else
        (self, false)
  | .other => (self, false)

/-- The movement direction summed inside CameraController::update_camera
(src/camera.rs lines 152 to 159). -/
noncomputable def CameraController.move_direction
    (self : CameraController) (camera : Camera) : Vec3 :=
  (if self.is_forward_pressed then camera.forward_direction else Vec3.zero) +
  (if self.is_backward_pressed then -camera.forward_direction else Vec3.zero) +
  (if self.is_right_pressed then camera.right_direction else Vec3.zero) +
  (if self.is_left_pressed then -camera.right_direction else Vec3.zero) +
  (if self.is_up_pressed then Vec3.unit_z else Vec3.zero) +
  (if self.is_down_pressed then -Vec3.unit_z else Vec3.zero)

/-- CameraController::update_camera (src/camera.rs lines 150 to 168): moves the
position along the normalized direction when past the dead zone, folds the
rotation deltas into the camera angles, then resets the deltas. -/
noncomputable def CameraController.update_camera
    (self : CameraController) (camera : Camera) : CameraController × Camera :=
  let direction := self.move_direction camera
  let magnitude := direction.magnitude
  let camera1 :=
    if magnitude > 0.001 then
      { camera with position := camera.position + direction / magnitude * self.speed }
    else
      camera
  let camera2 :=
    { camera1 with
        angle_ground := camera1.angle_ground + self.angle_ground_delta * 0.001
        angle_up := camera1.angle_up + self.angle_up_delta * 0.001 }
  ({ self with angle_ground_delta := 0, angle_up_delta := 0 }, camera2)

/-- Model of cgmath Matrix4 of f32. -/
abbrev Mat4 : Type := Matrix (Fin 4) (Fin 4) ℝ

/-- cgmath Matrix4::new: sixteen scalars given in column-major order. -/
def Matrix4.new (c0x c0y c0z c0w c1x c1y c1z c1w c2x c2y c2z c2w c3x c3y c3z c3w : ℝ) :
    Mat4 :=
  Matrix.of
    ![![c0x, c1x, c2x, c3x],
      ![c0y, c1y, c2y, c3y],
      ![c0z, c1z, c2z, c3z],
      ![c0w, c1w, c2w, c3w]]

/-- OPENGL_TO_WGPU_MATRIX (src/main.rs lines 157 to 162). -/
noncomputable def OPENGL_TO_WGPU_MATRIX : Mat4 :=
  Matrix4.new
    1 0 0 0
    0 1 0 0
    0 0 0.5 0
    0 0 0.5 1

/-- cgmath perspective from a field of view in degrees: converts to radians
and builds the right-handed perspective matrix with cot of half the angle. -/
noncomputable def perspective (fovyDeg aspect near far : ℝ) : Mat4 :=
  let fovyRad := fovyDeg * (Real.pi / 180)
  let f := Real.cos (fovyRad / 2) / Real.sin (fovyRad / 2)
  Matrix4.new
    (f / aspect) 0 0 0
    0 f 0 0
    0 0 ((far + near) / (near - far)) (-1)
    0 0 ((2 * far * near) / (near - far)) 0

/-- cgmath Matrix4::look_at_rh via look_to_rh. -/
noncomputable def look_at_rh (eye center up : Vec3) : Mat4 :=
  let f := (center - eye).normalize
  let s := (f.cross up).normalize
  let u := s.cross f
  Matrix4.new
    s.x u.x (-f.x) 0
    s.y u.y (-f.y) 0
    s.z u.z (-f.z) 0
    (-(eye.dot s)) (-(eye.dot u)) (eye.dot f) 1

/-- Camera::build_view_projection_matrix (src/camera.rs lines 26 to 30). -/
noncomputable def Camera.build_view_projection_matrix (self : Camera) : Mat4 :=
  let view := look_at_rh self.position (self.position + self.look_direction) Vec3.unit_z
  let proj := perspective self.fovy self.aspect self.znear self.zfar
  proj * view

/-- Uniforms (src/main.rs lines 209 to 213): the CPU-side uniform mirror. -/
structure Uniforms where
  view_proj : Mat4

/-- Uniforms::new (src/main.rs lines 216 to 221). -/
noncomputable def Uniforms.new : Uniforms := { view_proj := (1 : Mat4) }

/-- Uniforms::update_view_proj (src/main.rs lines 223 to 225). -/
noncomputable def Uniforms.update_view_proj (self : Uniforms) (camera : Camera) : Uniforms :=
  { self with view_proj := OPENGL_TO_WGPU_MATRIX * camera.build_view_projection_matrix }

/-- INDICES (src/main.rs lines 147 to 154). -/
def INDICES : List ℕ :=
  [0, 1, 2, 0, 2, 3,
   7, 6, 4, 6, 5, 4,
   8, 9, 10, 8, 10, 11,
   15, 14, 12, 14, 13, 12,
   16, 17, 18, 16, 18, 19,
   23, 22, 20, 22, 21, 20]

/-- num_indices (src/main.rs line 544): INDICES.len(). -/
def num_indices : ℕ := INDICES.length

/-- Load operation of a render-pass color attachment: clear with a color, or
load the existing contents. -/
inductive LoadOp where
  | clear (r g b a : ℝ)
  | load

/-- What one recorded render pass binds and draws. -/
structure PassRecord where
  load : LoadOp
  bindsTexture : Bool
  bindsUniform : Bool
  drawIndexCount : ℕ
  depthStencil : Bool

/-- State::render (src/main.rs lines 594 to 633): the list of render passes
recorded each frame, with the load operation, bound groups, index count and
depth-stencil setting of each. The source records a single pass that clears,
binds the diffuse group and the uniform group, and draws num_indices indices
with no depth-stencil attachment. -/
noncomputable def render_pass_list : List PassRecord :=
  [{ load := .clear 0.1 0.2 0.3 1.0
     bindsTexture := true
     bindsUniform := true
     drawIndexCount := num_indices
     depthStencil := false }]

/-- wgpu SwapChainError, as matched in main (src/main.rs lines 692 to 700). -/
inductive SwapChainError where
  | Timeout
  | Outdated
  | Lost
  | OutOfMemory

/-- The fields of State that State::resize touches (src/main.rs lines 334
to 354, 567 to 574): the stored size, the swap-chain descriptor dimensions
and the camera aspect ratio. -/
structure RenderState where
  size : ℕ × ℕ
  sc_width : ℕ
  sc_height : ℕ
  aspect : ℝ

/-- State::resize (src/main.rs lines 567 to 574). -/
noncomputable def RenderState.resize (self : RenderState) (new_size : ℕ × ℕ) : RenderState :=
  { self with
      size := new_size
      sc_width := new_size.1
      sc_height := new_size.2
      aspect := (new_size.1 : ℝ) / (new_size.2 : ℝ) }

/-- Reaction of the frame loop to the result of State::render. -/
inductive FrameReaction where
  | proceed
  | reconfigure (size : ℕ × ℕ)
  | terminate
  | logAndSkip

/-- The match on the render result in main (src/main.rs lines 692 to 700):
Ok does nothing, Lost resizes at the current stored size, OutOfMemory exits
the loop, and every other error is printed and the frame skipped. -/
def react_to_render (st : RenderState) : Option SwapChainError → FrameReaction
  | none => .proceed
  | some .Lost => .reconfigure st.size
  | some .OutOfMemory => .terminate
  | some _ => .logAndSkip

/-- The window events distinguished by the match in main (src/main.rs lines
656 to 681), reached when the controller did not consume the event. -/
inductive WindowEventKind where
  | closeRequested
  | keyPressedEscape
  | keyboardOther
  | mouseInputLeft
  | resized (w h : ℕ)
  | scaleFactorChanged (w h : ℕ)
  | other

/-- Side effects the window-event match can request. -/
inductive WindowAction where
  | exitLoop
  | setCursorGrab (grab : Bool)
  | setCursorVisible (visible : Bool)
  | setCursorPosition (x y : ℝ)
  | resizeTo (w h : ℕ)

/-- The window-event match in main (src/main.rs lines 656 to 681), as the
list of side effects it requests for each event kind. -/
def handle_window_event : WindowEventKind → List WindowAction
  | .closeRequested => [.exitLoop]
  | .keyPressedEscape => [.setCursorGrab false, .setCursorVisible true]
  | .keyboardOther => []
  | .mouseInputLeft => [.setCursorGrab true, .setCursorVisible false]
  | .resized w h => [.resizeTo w h]
  | .scaleFactorChanged w h => [.resizeTo w h]
  | .other => []

/-!
Theorems about the embedded program.
-/

/-- C1 counterexample: the draw phase of State::render records exactly one
render pass, not two, so there is no separate sky pass before a cube pass. -/
theorem render_single_pass_ne_two :
    render_pass_list.length = 1 ∧ render_pass_list.length ≠ 2 := by
  refine ⟨rfl, ?_⟩
  intro h
  simp [render_pass_list] at h

/-- C1 amended: every frame State::render records exactly one render pass
against the target image; it clears the target to color (0.1, 0.2, 0.3, 1.0),
binds the pipeline with the texture binding and the uniform binding, draws
the 36 cube indices, and has depth and stencil disabled. -/
theorem render_records_one_clearing_pass :
    render_pass_list =
      [{ load := .clear 0.1 0.2 0.3 1.0
         bindsTexture := true
         bindsUniform := true
         drawIndexCount := 36
         depthStencil := false }] := rfl

/-- C2: the frame loop reacts to the render result as follows: a Lost surface
is reconfigured at the current stored size (resize leaves the stored size
unchanged and writes it into the swap-chain descriptor) and the loop goes on;
OutOfMemory terminates the loop; Timeout and Outdated are logged and the
frame skipped; a successful render needs no reaction. -/
theorem render_error_reactions (st : RenderState) :
    react_to_render st (some .Lost) = .reconfigure st.size
    ∧ (st.resize st.size).size = st.size
    ∧ (st.resize st.size).sc_width = st.size.1
    ∧ (st.resize st.size).sc_height = st.size.2
    ∧ react_to_render st (some .OutOfMemory) = .terminate
    ∧ react_to_render st (some .Timeout) = .logAndSkip
    ∧ react_to_render st (some .Outdated) = .logAndSkip
    ∧ react_to_render st none = .proceed :=
  ⟨rfl, rfl, rfl, rfl, rfl, rfl, rfl, rfl⟩

/-- C3: for every controller state and mouse-motion event, when the cursor is
not captured the controller is returned unchanged with consumed = false; when
captured, dx is subtracted from angle_ground_delta, dy from angle_up_delta,
and consumed = true. -/
theorem process_device_event_capture_gating
    (self : CameraController) (dx dy : ℝ) :
    self.process_device_event (.mouseMotion dx dy) false = (self, false)
    ∧ self.process_device_event (.mouseMotion dx dy) true =
        ({ self with
            angle_ground_delta := self.angle_ground_delta - dx
            angle_up_delta := self.angle_up_delta - dy }, true) :=
  ⟨rfl, rfl⟩

/-- C4 counterexample: the Escape branch of the window-event match releases
the cursor grab and shows the pointer, but requests no pointer reposition; in
particular, for an 800 by 600 window, no action moves the pointer to the
midpoint (400, 300). -/
theorem escape_does_not_recenter_pointer :
    handle_window_event .keyPressedEscape =
      [.setCursorGrab false, .setCursorVisible true]
    ∧ WindowAction.setCursorPosition 400 300 ∉
        handle_window_event .keyPressedEscape := by
  refine ⟨rfl, ?_⟩
  intro h
  simp [handle_window_event] at h

/-- C4 amended: when Escape is pressed the cursor grab is released and the
pointer made visible, with no repositioning; when the left mouse button is
pressed the cursor is grabbed and the pointer hidden. -/
theorem escape_and_click_cursor_actions :
    handle_window_event .keyPressedEscape =
      [.setCursorGrab false, .setCursorVisible true]
    ∧ handle_window_event .mouseInputLeft =
      [.setCursorGrab true, .setCursorVisible false] :=
  ⟨rfl, rfl⟩

/-- C8: after every update_camera call the controller rotation deltas are
zero, and the camera angles have received the pending deltas scaled by the
sensitivity constant 0.001. -/
theorem update_camera_resets_deltas_after_fold
    (self : CameraController) (camera : Camera) :
    (self.update_camera camera).1.angle_ground_delta = 0
    ∧ (self.update_camera camera).1.angle_up_delta = 0
    ∧ (self.update_camera camera).2.angle_ground =
        camera.angle_ground + self.angle_ground_delta * 0.001
    ∧ (self.update_camera camera).2.angle_up =
        camera.angle_up + self.angle_up_delta * 0.001 := by
  refine ⟨rfl, rfl, ?_, ?_⟩ <;>
    · simp only [CameraController.update_camera]
      split <;> rfl

/-- C10: update_camera never changes the camera intrinsics (aspect, fovy,
znear, zfar) nor the controller speed and six pressed flags. -/
theorem update_camera_frame_conditions
    (self : CameraController) (camera : Camera) :
    (self.update_camera camera).2.aspect = camera.aspect
    ∧ (self.update_camera camera).2.fovy = camera.fovy
    ∧ (self.update_camera camera).2.znear = camera.znear
    ∧ (self.update_camera camera).2.zfar = camera.zfar
    ∧ (self.update_camera camera).1.speed = self.speed
    ∧ (self.update_camera camera).1.is_up_pressed = self.is_up_pressed
    ∧ (self.update_camera camera).1.is_down_pressed = self.is_down_pressed
    ∧ (self.update_camera camera).1.is_forward_pressed = self.is_forward_pressed
    ∧ (self.update_camera camera).1.is_backward_pressed = self.is_backward_pressed
    ∧ (self.update_camera camera).1.is_left_pressed = self.is_left_pressed
    ∧ (self.update_camera camera).1.is_right_pressed = self.is_right_pressed := by
  refine ⟨?_, ?_, ?_, ?_, rfl, rfl, rfl, rfl, rfl, rfl, rfl⟩ <;>
    · simp only [CameraController.update_camera]
      split <;> rfl

/-- When each pressed flag equals its opposite, the summed movement direction
is the zero vector: opposite contributions cancel by vector addition. -/
lemma move_direction_eq_zero_of_cancel
    (self : CameraController) (camera : Camera)
    (h1 : self.is_forward_pressed = self.is_backward_pressed)
    (h2 : self.is_left_pressed = self.is_right_pressed)
    (h3 : self.is_up_pressed = self.is_down_pressed) :
    self.move_direction camera = Vec3.zero := by
  obtain ⟨spd, agd, aud, up, down, fwd, bwd, left, right⟩ := self
  simp only at h1 h2 h3
  subst h1
  subst h2
  subst h3
  cases fwd <;> cases left <;> cases up <;>
    · ext <;>
        simp [CameraController.move_direction, Camera.forward_direction,
          Camera.right_direction, Vec3.unit_z, Vec3.zero]

/-- The zero vector has magnitude zero. -/
lemma magnitude_zero : Vec3.zero.magnitude = 0 := by
  simp [Vec3.magnitude, Vec3.dot, Vec3.zero]

/-- C7: whenever the opposite pressed flags agree pairwise (for example
forward and backward both held, and likewise left with right and up with
down), update_camera leaves the camera position unchanged, because opposite
flags cancel by vector addition. -/
theorem update_camera_opposite_flags_cancel
    (self : CameraController) (camera : Camera)
    (h1 : self.is_forward_pressed = self.is_backward_pressed)
    (h2 : self.is_left_pressed = self.is_right_pressed)
    (h3 : self.is_up_pressed = self.is_down_pressed) :
    (self.update_camera camera).2.position = camera.position := by
  have hz := move_direction_eq_zero_of_cancel self camera h1 h2 h3
  simp only [CameraController.update_camera, hz, magnitude_zero]
  rw [if_neg (by norm_num : ¬ ((0:ℝ) > 0.001))]

/-- C7 witness: with all six flags held at once, a concrete update leaves the
initial camera position unchanged. -/
theorem update_camera_opposite_flags_cancel_witness :
    ((⟨0.2, 0, 0, true, true, true, true, true, true⟩ :
        CameraController).update_camera (Camera.new 1)).2.position =
      (Camera.new 1).position :=
  update_camera_opposite_flags_cancel _ _ rfl rfl rfl

/-- C9: for every camera state, the forward direction is a unit vector
orthogonal to the right direction, and both depend only on the yaw angle
with zero vertical component. -/
theorem forward_right_unit_orthogonal (c : Camera) :
    c.forward_direction.magnitude = 1
    ∧ c.forward_direction.dot c.right_direction = 0
    ∧ c.forward_direction =
        ⟨Real.cos c.angle_ground, Real.sin c.angle_ground, 0⟩
    ∧ c.right_direction =
        ⟨Real.sin c.angle_ground, -Real.cos c.angle_ground, 0⟩ := by
  refine ⟨?_, ?_, rfl, rfl⟩
  · unfold Vec3.magnitude Vec3.dot Camera.forward_direction
    rw [show Real.cos c.angle_ground * Real.cos c.angle_ground +
          Real.sin c.angle_ground * Real.sin c.angle_ground + 0 * 0 =
        Real.sin c.angle_ground ^ 2 + Real.cos c.angle_ground ^ 2 by ring,
      Real.sin_sq_add_cos_sq, Real.sqrt_one]
  · unfold Vec3.dot Camera.forward_direction Camera.right_direction
    ring

/-- A nonzero-magnitude vector divided by its magnitude and scaled by a
nonnegative scalar has magnitude equal to that scalar. -/
lemma magnitude_div_mul (v : Vec3) (s : ℝ)
    (hv : 0 < v.magnitude) (hs : 0 ≤ s) :
    (v / v.magnitude * s).magnitude = s := by
  have hd0 : (0:ℝ) ≤ v.dot v := by
    simp only [Vec3.dot]
    nlinarith [mul_self_nonneg v.x, mul_self_nonneg v.y, mul_self_nonneg v.z]
  have hm2 : v.magnitude * v.magnitude = v.dot v := Real.mul_self_sqrt hd0
  have hdpos : (0:ℝ) < v.dot v := by
    rw [← hm2]
    exact mul_pos hv hv
  have hmne : v.magnitude ≠ 0 := ne_of_gt hv
  have hw : (v / v.magnitude * s).dot (v / v.magnitude * s) = s ^ 2 := by
    simp only [Vec3.dot, Vec3.hmul_x, Vec3.hmul_y, Vec3.hmul_z,
      Vec3.hdiv_x, Vec3.hdiv_y, Vec3.hdiv_z]
    have expand : v.x / v.magnitude * s * (v.x / v.magnitude * s) +
        v.y / v.magnitude * s * (v.y / v.magnitude * s) +
        v.z / v.magnitude * s * (v.z / v.magnitude * s) =
        s ^ 2 * (v.x * v.x + v.y * v.y + v.z * v.z) /
          (v.magnitude * v.magnitude) := by
      field_simp
      ring
    rw [expand, hm2]
    rw [show v.x * v.x + v.y * v.y + v.z * v.z = v.dot v from rfl]
    rw [mul_div_assoc, div_self (ne_of_gt hdpos), mul_one]
  rw [Vec3.magnitude, hw, Real.sqrt_sq hs]

/-- C6: when the summed direction for the pressed flags has magnitude above
the dead zone 0.001, update_camera adds exactly that vector normalized and
scaled by the speed to the position, so the position moves by distance equal
to the speed; otherwise the position is unchanged. -/
theorem update_camera_normalized_speed
    (self : CameraController) (camera : Camera) :
    ((self.move_direction camera).magnitude > 0.001 →
      (self.update_camera camera).2.position =
        camera.position +
          self.move_direction camera / (self.move_direction camera).magnitude
            * self.speed
      ∧ (0 ≤ self.speed →
          ((self.update_camera camera).2.position - camera.position).magnitude
            = self.speed))
    ∧ ((self.move_direction camera).magnitude ≤ 0.001 →
      (self.update_camera camera).2.position = camera.position) := by
  constructor
  · intro h
    have hpos : (self.update_camera camera).2.position =
        camera.position +
          self.move_direction camera / (self.move_direction camera).magnitude
            * self.speed := by
      simp only [CameraController.update_camera]
      rw [if_pos h]
    refine ⟨hpos, ?_⟩
    intro hs
    rw [hpos]
    have hsub : camera.position +
        self.move_direction camera / (self.move_direction camera).magnitude
          * self.speed - camera.position =
        self.move_direction camera / (self.move_direction camera).magnitude
          * self.speed := by
      ext <;> simp
    rw [hsub]
    exact magnitude_div_mul _ _ (lt_trans (by norm_num) h) hs
  · intro h
    simp only [CameraController.update_camera]
    rw [if_neg (not_lt.mpr h)]

/-- C6 witness: with only the forward flag held, speed 0.2 and the initial
camera, a concrete update moves the position by distance 0.2. -/
theorem update_camera_normalized_speed_witness :
    (((⟨0.2, 0, 0, false, false, true, false, false, false⟩ :
        CameraController).update_camera (Camera.new 1)).2.position -
      (Camera.new 1).position).magnitude = 0.2 := by
  have hmd : (⟨0.2, 0, 0, false, false, true, false, false, false⟩ :
      CameraController).move_direction (Camera.new 1) = ⟨1, 0, 0⟩ := by
    ext <;>
      simp [CameraController.move_direction, Camera.forward_direction,
        Camera.new, Vec3.zero]
  have h : ((⟨0.2, 0, 0, false, false, true, false, false, false⟩ :
      CameraController).move_direction (Camera.new 1)).magnitude > 0.001 := by
    rw [hmd]
    norm_num [Vec3.magnitude, Vec3.dot, Real.sqrt_one]
  exact ((update_camera_normalized_speed _ _).1 h).2 (by norm_num)

/-- C5: for every camera with the fixed intrinsics fovy 45 degrees, znear 0.1
and zfar 100, the matrix written into the uniform mirror is the correction
matrix times the perspective projection times the look-at view built from the
position, the look direction and world up +Z; and the correction matrix acts
as the identity on every component except the third, which becomes
0.5 z + 0.5 w. -/
theorem uniform_view_proj_correction (u : Uniforms) (c : Camera)
    (x y z w : ℝ)
    (hf : c.fovy = 45) (hn : c.znear = 0.1) (hz : c.zfar = 100) :
    (u.update_view_proj c).view_proj =
      OPENGL_TO_WGPU_MATRIX *
        (perspective 45 c.aspect 0.1 100 *
          look_at_rh c.position (c.position + c.look_direction) Vec3.unit_z)
    ∧ OPENGL_TO_WGPU_MATRIX.mulVec ![x, y, z, w] =
        ![x, y, 0.5 * z + 0.5 * w, w] := by
  constructor
  · simp only [Uniforms.update_view_proj, Camera.build_view_projection_matrix,
      hf, hn, hz]
  · funext i
    fin_cases i <;>
      simp [OPENGL_TO_WGPU_MATRIX, Matrix4.new, Matrix.mulVec,
        Matrix.dotProduct, Fin.sum_univ_four]

/-- C5 witness: the identity for the concrete startup camera of aspect 1 and
the concrete clip-space vector (1, 2, 3, 4). -/
theorem uniform_view_proj_correction_witness :
    (Uniforms.new.update_view_proj (Camera.new 1)).view_proj =
      OPENGL_TO_WGPU_MATRIX *
        (perspective 45 (Camera.new 1).aspect 0.1 100 *
          look_at_rh (Camera.new 1).position
            ((Camera.new 1).position + (Camera.new 1).look_direction)
            Vec3.unit_z)
    ∧ OPENGL_TO_WGPU_MATRIX.mulVec ![1, 2, 3, 4] =
        ![1, 2, 0.5 * 3 + 0.5 * 4, 4] :=
  uniform_view_proj_correction Uniforms.new (Camera.new 1) 1 2 3 4 rfl rfl rfl

end Mycraft
